import Mathlib

/-!
Verification development for the XchangeBot data access and cache
consistency layer.  The definitions below are shallow embeddings of the
Python sources: `sheets.py` (Google-Sheets-backed store, its cache
manager and read-through decorator, the legacy-identifier migration),
`database.py` (relational store) and `data_manager.py` (the unified
facade).  Machine integers are modelled by Int/Nat, Python floats by
rationals, Python dicts by association lists, Python exceptions by
Except/Option.
-/

set_option maxHeartbeats 1000000
set_option linter.unusedVariables false
set_option linter.unreachableTactic false
set_option linter.unusedTactic false

/-! ## Association-list helpers (Python dict semantics: unique keys) -/

def alGet {κ α : Type} [DecidableEq κ] : List (κ × α) → κ → Option α
  | [], _ => none
  | (k, v) :: t, k' => if k = k' then some v else alGet t k'

def alSet {κ α : Type} [DecidableEq κ] : List (κ × α) → κ → α → List (κ × α)
  | [], k, v => [(k, v)]
  | (k0, v0) :: t, k, v =>
    if k0 = k then (k, v) :: t else (k0, v0) :: alSet t k v

def alErase {κ α : Type} [DecidableEq κ] : List (κ × α) → κ → List (κ × α)
  | [], _ => []
  | (k0, v0) :: t, k =>
    if k0 = k then t else (k0, v0) :: alErase t k

/-! ## Python value helpers -/

/-- A Python scalar as stored in the transaction dictionaries: either a
number (int/float, modelled by a rational) or a string. -/
inductive PyVal : Type
  | num : ℚ → PyVal
  | str : String → PyVal
deriving DecidableEq, Repr

/-- Python truthiness for the values above: 0 and the empty string are
falsy, everything else truthy. -/
def PyVal.truthy : PyVal → Bool
  | .num q => q ≠ 0
  | .str s => s ≠ ""

/-- Digit-string value (used after Char.isDigit checks). -/
def strToNat (s : String) : Nat :=
  s.foldl (fun a c => a * 10 + (c.toNat - 48)) 0

/-- Python str.isdigit for ASCII decimal strings: nonempty and all digits. -/
def isDigits (s : String) : Bool :=
  s ≠ "" && s.toList.all Char.isDigit

/-- Fractional value of a digit list interpreted after a decimal point. -/
def fracVal (cs : List Char) : ℚ :=
  (strToNat ⟨cs⟩ : ℚ) / ((10 : ℚ) ^ cs.length)

/-- Model of Python float(s) on a decorated-free decimal string: leading
and trailing whitespace stripped, optional sign, digits with at most one
decimal point; anything else raises (returns none).  Exponent and
inf/nan forms are not used by this repository's data. -/
def parseRat? (s : String) : Option ℚ :=
  let t := s.trim.toList
  let (neg, t) := match t with
    | '-' :: r => (true, r)
    | '+' :: r => (false, r)
    | r => (false, r)
  let intPart := t.takeWhile Char.isDigit
  let rest := t.dropWhile Char.isDigit
  let mag? : Option ℚ :=
    match rest with
    | [] => if intPart.isEmpty then none else some (strToNat ⟨intPart⟩ : ℚ)
    | '.' :: fr =>
      if fr.all Char.isDigit && (!intPart.isEmpty || !fr.isEmpty) then
        some ((strToNat ⟨intPart⟩ : ℚ) + fracVal fr)
      else none
    | _ => none
  mag?.map (fun m => if neg then -m else m)

/-- Model of Python int(s): stripped string, optional sign, digits. -/
def pyInt? (s : String) : Option Int :=
  let t := s.trim
  if t.startsWith "-" then
    let d := t.drop 1
    if isDigits d then some (-(strToNat d : Int)) else none
  else if isDigits t then some (strToNat t : Int) else none

/-- Python float() applied to a transaction-dictionary value: numbers
pass through, strings are parsed, failure models ValueError. -/
def pyFloat? : PyVal → Option ℚ
  | .num q => some q
  | .str s => parseRat? s

/-- Python str.lower restricted to the alphabets this repository uses:
ASCII letters and the Cyrillic block (А..Я and Ё). -/
def pyLowerChar (c : Char) : Char :=
  if 'A' ≤ c && c ≤ 'Z' then Char.ofNat (c.toNat + 32)
  else if 0x410 ≤ c.toNat && c.toNat ≤ 0x42F then Char.ofNat (c.toNat + 0x20)
  else if c.toNat = 0x401 then Char.ofNat 0x451
  else c

def pyLower (s : String) : String :=
  ⟨s.toList.map pyLowerChar⟩

/-- Python round() to an integer: round half to even. -/
def pyRoundInt (x : ℚ) : ℤ :=
  let f : ℤ := x.num.fdiv (x.den : ℤ)
  let r : ℚ := x - (f : ℚ)
  if r < 1 / 2 then f
  else if 1 / 2 < r then f + 1
  else if f % 2 = 0 then f else f + 1

/-- Python round(x, 2). -/
def pyRound2 (x : ℚ) : ℚ :=
  (pyRoundInt (x * 100) : ℚ) / 100

/-! ## CacheManager (sheets.py lines 25-171)

Timestamps are naturals (a monotone clock); CACHE_DURATION is the module
constant 10 from sheets.py line 22.  The cache maps a key to the pair
(creation time, value); only non-None values are ever stored (see the
decorator below), so the stored value type is the bare V. -/

def CACHE_DURATION : Nat := 10

structure CacheManagerState (V : Type) where
  cache : List (String × (Nat × V))
  hits : Nat
  misses : Nat
  last_access_time : List (String × Nat)
  invalidations : Nat
deriving Repr

def CacheManager.init (V : Type) : CacheManagerState V :=
  { cache := [], hits := 0, misses := 0, last_access_time := [], invalidations := 0 }

/-- CacheManager.get (sheets.py lines 36-60): records the access time,
returns (value, true) on a fresh hit, lazily evicts an expired entry,
and counts a miss otherwise. -/
def CacheManager.get {V : Type} (now : Nat) (key : String)
    (s : CacheManagerState V) : Option V × Bool × CacheManagerState V :=
  let s := { s with last_access_time := alSet s.last_access_time key now }
  match alGet s.cache key with
  | some (ts, v) =>
    if now - ts < CACHE_DURATION then
      (some v, true, { s with hits := s.hits + 1 })
    else
      let s := { s with cache := alErase s.cache key,
                        invalidations := s.invalidations + 1 }
      (none, false, { s with misses := s.misses + 1 })
  | none => (none, false, { s with misses := s.misses + 1 })

/-- CacheManager.set (sheets.py lines 62-70). -/
def CacheManager.set {V : Type} (now : Nat) (key : String) (v : V)
    (s : CacheManagerState V) : CacheManagerState V :=
  { s with cache := alSet s.cache key (now, v) }

/-! ## cache_result decorator (sheets.py lines 174-235)

The wrapper is modelled at a single call: the cache key computed from
the operation name and arguments is passed in directly (it is a
deterministic function of them, so equal arguments give equal keys), and
the underlying operation's would-be result is passed as an Option value
(none models Python None).  The returned Bool reports whether the
underlying function was invoked. -/

def cache_result_call {V : Type} (dummy_mode debug : Bool) (now : Nat)
    (key : String) (underlying : Option V) (s : CacheManagerState V) :
    Option V × CacheManagerState V × Bool :=
  if dummy_mode then (underlying, s, true)
  else if debug then (underlying, s, true)
  else
    match CacheManager.get now key s with
    | (v, true, s') => (v, s', false)
    | (_, false, s') =>
      let result := underlying
      match result with
      | some r => (result, CacheManager.set now key r s', true)
      | none => (result, s', true)

/-! ## DataManager secondary statistics cache (data_manager.py lines 285-328)

The facade's stats_cache is a Python dict whose keys may be of any type;
get_daily_statistics stores under the STRING key "day_stats_<chat_id>"
while clear_stats_cache tests and deletes the INT key chat_id.  The key
type is therefore modelled as a sum of the two Python key types in play. -/

inductive PyKey : Type
  | intKey : Int → PyKey
  | strKey : String → PyKey
deriving DecidableEq, Repr

structure DataManagerState (V : Type) where
  stats_cache : List (PyKey × V)
deriving Repr

def DataManager.init (V : Type) : DataManagerState V := { stats_cache := [] }

/-- DataManager.get_daily_statistics (data_manager.py lines 285-317):
consults stats_cache under key "day_stats_<chat_id>" unless
force_refresh, otherwise obtains the backend result (passed in as
`backend`, the value the selected backend returns) and caches it. -/
def DataManager.get_daily_statistics {V : Type} (chat_id : Int)
    (force_refresh : Bool) (backend : V) (s : DataManagerState V) :
    V × DataManagerState V :=
  let cache_key := PyKey.strKey ("day_stats_" ++ toString chat_id)
  match (if force_refresh then none else alGet s.stats_cache cache_key) with
  | some v => (v, s)
  | none =>
    (backend, { s with stats_cache := alSet s.stats_cache cache_key backend })

/-- DataManager.clear_stats_cache (data_manager.py lines 319-328): tests
and deletes the raw chat_id (an int) as dict key. -/
def DataManager.clear_stats_cache {V : Type} (chat_id : Int)
    (s : DataManagerState V) : DataManagerState V :=
  if (alGet s.stats_cache (PyKey.intKey chat_id)).isSome then
    { s with stats_cache := alErase s.stats_cache (PyKey.intKey chat_id) }
  else s

/-! ## Spreadsheet-backed store, regular (live) mode (sheets.py)

The worksheet is a list of rows, each row a list of cell strings; row 0
is the header.  gspread col_values(1) is the first cell of every row,
row_values(i) is row i-1, and an A..J range update rewrites the first
ten cells of a row. -/

abbrev Sheet : Type := List (List String)

/-- First index in a list satisfying a predicate (the `for i, value in
enumerate(...): if ...: break` searches of sheets.py). -/
def findIdxFrom {α : Type} (p : α → Bool) : List α → Option Nat
  | [] => none
  | a :: t => if p a then some 0 else (findIdxFrom p t).map (· + 1)

/-- Row search of update_transaction / get_transaction (sheets.py lines
481-487, 551-557): scan column 1 (header included) for the cell equal to
str(transaction_id); the returned index is 0-based into the row list. -/
def findRowIdx (sheet : Sheet) (transaction_id : Int) : Option Nat :=
  findIdxFrom (fun r => r.getD 0 "" == toString transaction_id) sheet

/-- A transaction dictionary as built by the sheets client.  In regular
mode every field read from the sheet is a string; dummy mode stores
numbers, hence PyVal for the numeric-ish fields. -/
structure STx where
  id : Int
  dt : String
  amount : PyVal
  method : String
  commission : PyVal
  rate : PyVal
  status : String
  group : String
  hash : String
  chat_id : String
deriving DecidableEq, Repr

/-- The partial update dictionary accepted by update_transaction; a
none field models an absent key (data.get falls back to the existing
cell).  The id, datetime and group keys may be supplied by a caller but
update_transaction never reads them — the row builder below only calls
data.get for the seven mutable columns, mirroring sheets.py 497-513. -/
structure UpdateData where
  amount : Option String := none
  method : Option String := none
  commission : Option String := none
  rate : Option String := none
  status : Option String := none
  hash : Option String := none
  chat_id : Option String := none
  id : Option String := none
  datetime : Option String := none
  group : Option String := none
deriving DecidableEq, Repr

/-- The ten cells written by update_transaction (sheets.py lines
496-513): ID, date/time and group are copied from the existing row, the
rest fall back to the existing cells through data.get. -/
def mkUpdatedRow (row : List String) (data : UpdateData) : List String :=
  [row.getD 0 "", row.getD 1 "",
   data.amount.getD (row.getD 2 ""), data.method.getD (row.getD 3 ""),
   data.commission.getD (row.getD 4 ""), data.rate.getD (row.getD 5 ""),
   data.status.getD (row.getD 6 ""), row.getD 7 "",
   data.hash.getD (row.getD 8 ""), data.chat_id.getD (row.getD 9 "")]

/-- The full row left in place by mark_transaction_paid's update: the
ten rewritten cells of the A..J range followed by any untouched trailing
cells. -/
def markRow (row : List String) (transaction_hash : String) : List String :=
  mkUpdatedRow row
      { status := some "Выплачено", hash := some transaction_hash }
    ++ row.drop 10

/-- GoogleSheetsClient.update_transaction, regular mode (sheets.py lines
479-526).  The unguarded row_data[0..7] reads raise IndexError on a row
with fewer than 8 cells, which the operation boundary converts to False;
otherwise cells A..J of the row are rewritten and True is returned. -/
def GoogleSheetsClient.update_transaction (sheet : Sheet)
    (transaction_id : Int) (data : UpdateData) : Bool × Sheet :=
  match findRowIdx sheet transaction_id with
  | none => (false, sheet)
  | some i =>
    let row := sheet.getD i []
    if row.length < 8 then (false, sheet)
    else (true, sheet.set i (mkUpdatedRow row data ++ row.drop 10))

/-- GoogleSheetsClient.get_transaction, regular mode (sheets.py lines
549-582).  The unguarded row_data[0..6] reads and the int(row_data[0])
conversion raise on malformed rows; the boundary converts that to None. -/
def GoogleSheetsClient.get_transaction (sheet : Sheet)
    (transaction_id : Int) : Option STx :=
  match findRowIdx sheet transaction_id with
  | none => none
  | some i =>
    let row := sheet.getD i []
    if row.length < 7 then none
    else
      match pyInt? (row.getD 0 "") with
      | none => none
      | some n =>
        some { id := n, dt := row.getD 1 "", amount := .str (row.getD 2 ""),
               method := row.getD 3 "", commission := .str (row.getD 4 ""),
               rate := .str (row.getD 5 ""), status := row.getD 6 "",
               group := row.getD 7 "", hash := row.getD 8 "",
               chat_id := row.getD 9 "" }

/-- GoogleSheetsClient.mark_transaction_paid (sheets.py lines 701-735):
look the transaction up, then update status and hash together. -/
def GoogleSheetsClient.mark_transaction_paid (sheet : Sheet)
    (transaction_id : Int) (transaction_hash : String) : Bool × Sheet :=
  match GoogleSheetsClient.get_transaction sheet transaction_id with
  | none => (false, sheet)
  | some _ =>
    GoogleSheetsClient.update_transaction sheet transaction_id
      { status := some "Выплачено", hash := some transaction_hash }

/-- The input dictionary of add_transaction.  amount, method, commission
and rate are required keys; group, chat_id, status and hash may or may
not be present (status and hash are listed to express that the store
ignores them on insert — the sheets row builder never reads them). -/
structure AddData where
  amount : String
  method : String
  commission : String
  rate : String
  group : Option String := none
  chat_id : Option String := none
  status : Option String := none
  hash : Option String := none
deriving DecidableEq, Repr

/-- The row appended by add_transaction (sheets.py lines 422-434): the
payment status cell is the constant "Не выплачено" and the hash cell is
empty, whatever the input dictionary contains. -/
def mkTransactionRow (new_id : Int) (now : String) (data : AddData) :
    List String :=
  [toString new_id, now, data.amount, data.method, data.commission,
   data.rate, "Не выплачено", data.group.getD "", "",
   data.chat_id.getD ""]

/-- New-id computation of add_transaction (sheets.py lines 416-420):
max of the numeric ids in column 1 (header skipped) plus one, 1 for an
empty table; raises ValueError (modelled by Except.error) when ids exist
but none is a digit string. -/
def nextTransactionId (sheet : Sheet) : Except String Int :=
  let all_ids := (sheet.map (fun r => r.getD 0 "")).drop 1
  if all_ids.isEmpty then .ok 1
  else
    let digits := all_ids.filter isDigits
    if digits.isEmpty then .error "ValueError"
    else .ok (((digits.map strToNat).foldl max 0 : Nat) + 1)

/-- GoogleSheetsClient.add_transaction, regular mode (sheets.py lines
415-447): compute the next id, append the formatted row; any failure is
re-raised to the caller. -/
def GoogleSheetsClient.add_transaction (sheet : Sheet) (now : String)
    (data : AddData) : Except String (Int × Sheet) :=
  match nextTransactionId sheet with
  | .error e => .error e
  | .ok new_id => .ok (new_id, sheet ++ [mkTransactionRow new_id now data])

/-! ## Daily statistics, sheets backend (sheets.py lines 1062-1281) -/

/-- Result dictionary of the sheets get_daily_statistics.  The
no-transactions dictionary carries no date key (hence Option). -/
structure SheetsStats where
  date : Option String
  transactions_count : Nat
  total_amount : ℚ
  awaiting_amount : ℚ
  to_pay_amount : ℚ
  paid_amount : ℚ
  avg_rate : ℚ
  avg_commission : ℚ
  unpaid_usdt : ℚ
  to_pay_usdt : ℚ
  total_usdt : ℚ
  paid_usdt : ℚ
  methods_count : List (String × Nat)
deriving DecidableEq, Repr

/-- The zeroed dictionary returned when no transactions match
(sheets.py lines 1139-1152). -/
def emptySheetsStats : SheetsStats :=
  { date := none, transactions_count := 0, total_amount := 0,
    awaiting_amount := 0, to_pay_amount := 0, paid_amount := 0,
    avg_rate := 0, avg_commission := 0, unpaid_usdt := 0, to_pay_usdt := 0,
    total_usdt := 0, paid_usdt := 0, methods_count := [] }

/-- The zeroed dictionary returned from the exception handler
(sheets.py lines 1267-1281). -/
def errorSheetsStats (current_date : String) : SheetsStats :=
  { emptySheetsStats with date := some current_date }

/-- Day settings dictionary as returned by get_day_settings
(sheets.py lines 903-907). -/
structure DaySettings where
  date : String
  rate : ℚ
  commission_percent : ℚ
deriving DecidableEq, Repr

/-- Naive substring test (Python `needle in haystack`). -/
def strContains (s pat : String) : Bool :=
  (List.range (s.toList.length + 1)).any
    (fun i => pat.toList.isPrefixOf (s.toList.drop i))

/-- The chat filter of get_daily_statistics (sheets.py lines 1097-1135):
keep a transaction on an exact chat_id match; on a group match (or one
of the two hard-coded historical group-label matches) rewrite its
chat_id to the requested identifier and keep it. -/
def statFilterStep (str_chat_id : String) (t : STx) : Option STx :=
  if t.chat_id == str_chat_id then some t
  else if t.group == str_chat_id then some { t with chat_id := str_chat_id }
  else if t.group != "" && "E, ".isPrefixOf t.group
       && (strContains t.group "Илья Кузнецов" || strContains t.group "XchangeBot")
       && (str_chat_id == "-4605781130") then
    some { t with chat_id := str_chat_id }
  else if t.group == "Тест123" && str_chat_id == "-4608567148" then
    some { t with chat_id := str_chat_id }
  else none

/-- sum(float(t[amount-key]) for t in txs if t[amount-key]): falsy
amounts are skipped, an unparsable truthy amount raises (the error is
caught only by the outer handler of get_daily_statistics). -/
def sumAmounts (txs : List STx) : Except String ℚ :=
  txs.foldlM
    (fun acc t =>
      if t.amount.truthy then
        match pyFloat? t.amount with
        | some v => Except.ok (acc + v)
        | none => Except.error "ValueError"
      else Except.ok acc) 0

/-- One unpaid transaction's contribution to the to-pay total
(sheets.py lines 1174-1198).  The per-transaction try/except turns a
ValueError into a skipped transaction (contribution 0); a plain string
commission that fails to parse falls back to the day commission. -/
def toPayContribution (current_commission : ℚ) (t : STx) : ℚ :=
  let amount? : Option ℚ :=
    if t.amount.truthy then pyFloat? t.amount else some 0
  match amount? with
  | none => 0
  | some amount =>
    let comm? : Option ℚ :=
      if t.commission.truthy then
        match t.commission with
        | .str s =>
          if s.contains '%' then parseRat? ((s.replace "%" "").trim)
          else
            match parseRat? s with
            | some v => some v
            | none => some current_commission
        | .num q => some q
      else some current_commission
    match comm? with
    | none => 0
    | some c => amount * (1 - c / 100)

/-- Rate collection for the average (sheets.py lines 1204-1214):
quotation marks and the USDT suffix are stripped from strings;
unparsable values are skipped. -/
def collectRate? (t : STx) : Option ℚ :=
  if t.rate.truthy then
    match t.rate with
    | .str s => parseRat? (((s.replace "\"" "").replace "USDT" "").trim)
    | .num q => some q
  else none

/-- Commission collection for the average (sheets.py lines 1216-1225). -/
def collectCommission? (t : STx) : Option ℚ :=
  if t.commission.truthy then
    match t.commission with
    | .str s => parseRat? ((s.replace "%" "").trim)
    | .num q => some q
  else none

/-- The statistics computation of GoogleSheetsClient.get_daily_statistics
(sheets.py lines 1088-1281), taking the day's transactions and the day
settings as the values the two inner reads return.  The per-day cache in
self.cache wraps this computation and is modelled with the facade cache. -/
def GoogleSheetsClient.get_daily_statistics_compute (current_date : String)
    (transactions0 : List STx) (chat_id : Option Int)
    (day_settings : Option DaySettings) : SheetsStats :=
  let transactions :=
    match chat_id with
    | some c => transactions0.filterMap (statFilterStep (toString c))
    | none => transactions0
  if transactions.isEmpty then emptySheetsStats
  else
    let current_rate := (day_settings.map (·.rate)).getD 0
    let current_commission := (day_settings.map (·.commission_percent)).getD 0
    match sumAmounts transactions with
    | .error _ => errorSheetsStats current_date
    | .ok total_amount =>
      let paid_transactions :=
        transactions.filter (fun t => pyLower t.status == "выплачено")
      let unpaid_transactions :=
        transactions.filter (fun t => pyLower t.status != "выплачено")
      match sumAmounts paid_transactions with
      | .error _ => errorSheetsStats current_date
      | .ok paid_amount =>
        match sumAmounts unpaid_transactions with
        | .error _ => errorSheetsStats current_date
        | .ok awaiting_amount =>
          let to_pay_amount := unpaid_transactions.foldl
            (fun acc t => acc + toPayContribution current_commission t) 0
          let rates := transactions.filterMap collectRate?
          let commissions := transactions.filterMap collectCommission?
          let avg_rate :=
            if rates.length > 0 then rates.sum / (rates.length : ℚ)
            else current_rate
          let avg_commission :=
            if commissions.length > 0 then
              commissions.sum / (commissions.length : ℚ)
            else current_commission
          let usdt_rate :=
            if current_rate > 0 then current_rate
            else if avg_rate > 0 then avg_rate else 90
          let unpaid_usdt :=
            if usdt_rate > 0 then pyRound2 (awaiting_amount / usdt_rate) else 0
          let to_pay_usdt :=
            if usdt_rate > 0 then pyRound2 (to_pay_amount / usdt_rate) else 0
          let total_usdt :=
            if usdt_rate > 0 then pyRound2 (total_amount / usdt_rate) else 0
          let paid_usdt :=
            if usdt_rate > 0 then pyRound2 (paid_amount / usdt_rate) else 0
          let methods_count := transactions.foldl
            (fun acc t => alSet acc t.method ((alGet acc t.method).getD 0 + 1))
            []
          { date := some current_date,
            transactions_count := transactions.length,
            total_amount := pyRound2 total_amount,
            awaiting_amount := pyRound2 awaiting_amount,
            to_pay_amount := pyRound2 to_pay_amount,
            paid_amount := pyRound2 paid_amount,
            avg_rate := pyRound2 avg_rate,
            avg_commission := pyRound2 avg_commission,
            unpaid_usdt := unpaid_usdt, to_pay_usdt := to_pay_usdt,
            total_usdt := total_usdt, paid_usdt := paid_usdt,
            methods_count := methods_count }

/-! ## Day status and day settings, sheets backend -/

/-- Stable insertion for the Python list.sort(key=...) calls. -/
def insertSortedBy {α : Type} (key : α → String) (a : α) :
    List α → List α
  | [] => [a]
  | b :: t =>
    if key a < key b then a :: b :: t else b :: insertSortedBy key a t

/-- Python list.sort(key=...): stable, ascending by the key string. -/
def pySortBy {α : Type} (key : α → String) (l : List α) : List α :=
  l.foldl (fun acc a => insertSortedBy key a acc) []

/-- GoogleSheetsClient.is_day_open, regular mode, over the DayStatus
worksheet values (sheets.py lines 940-998). -/
def is_day_open_rows (all_data : List (List String)) (chat_id : Option Int)
    (current_date : String) : Bool :=
  if all_data.length ≤ 1 then false
  else
    let data_rows := all_data.drop 1
    match chat_id with
    | some c =>
      let str_chat_id := toString c
      let filtered := data_rows.filter
        (fun row => row.length > 3 && row.getD 3 "" == str_chat_id)
      if filtered.isEmpty then false
      else
        let latest := (pySortBy (fun row => row.getD 2 "") filtered).getLastD []
        latest.getD 0 "" == current_date && latest.getD 1 "" == "Открыт"
    | none =>
      let today_status := data_rows.filter
        (fun row => row.getD 0 "" == current_date)
      if today_status.isEmpty then false
      else
        let global_status := today_status.filter
          (fun row => row.length ≤ 3 || row.getD 3 "" == "")
        if !global_status.isEmpty then
          let latest :=
            (pySortBy (fun row => row.getD 2 "") global_status).getLastD []
          latest.getD 1 "" == "Открыт"
        else
          today_status.any (fun row => row.getD 1 "" == "Открыт")

/-- get_day_settings body over the DaySettings worksheet values
(sheets.py lines 865-907): filter by chat, sort by the date column,
parse the latest row defensively (both values fall to 0 on a parse
error). -/
def get_day_settings_rows (all_data : List (List String))
    (chat_id : Option Int) (current_date : String) : Option DaySettings :=
  if all_data.length ≤ 1 then none
  else
    let filtered0 : List (List String) := all_data.drop 1
    let filtered : List (List String) :=
      match chat_id with
      | some c =>
        filtered0.filter
          (fun (row : List String) => row.length > 3 && row.getD 3 "" == toString c)
      | none => filtered0
    if filtered.isEmpty then none
    else
      let latest :=
        (pySortBy (fun (row : List String) => row.getD 0 "") filtered).getLastD []
      let date :=
        if latest.length > 0 then latest.getD 0 "" else current_date
      let rate? : Option ℚ :=
        if latest.length > 1 && latest.getD 1 "" ≠ "" then
          parseRat? (latest.getD 1 "")
        else some 0
      let commission? : Option ℚ :=
        if latest.length > 2 && latest.getD 2 "" ≠ "" then
          parseRat? (latest.getD 2 "")
        else some 0
      match rate?, commission? with
      | some r, some cm =>
        some { date := date, rate := r, commission_percent := cm }
      | _, _ => some { date := date, rate := 0, commission_percent := 0 }

/-! ## Dummy (offline development) mode (sheets.py lines 311-335) -/

/-- The in-memory state of dummy mode. -/
structure DummyState where
  transaction_id_counter : Int
  daily_transactions : List STx
  day_settings_rate : ℚ
  day_settings_commission : ℚ
  day_open : Bool
deriving Repr

/-- GoogleSheetsClient._initialize_dummy_mode (sheets.py lines 311-335):
one sample transaction, day settings 92.5/5.0, and day_open set to True. -/
def initialize_dummy_mode (now : String) : DummyState :=
  { transaction_id_counter := 1,
    daily_transactions :=
      [{ id := 1, dt := now, amount := .num 10000, method := "USDT TRC20",
         commission := .num 5, rate := .num (185 / 2),
         status := "Не оплачено", group := "Test Group", hash := "",
         chat_id := "" }],
    day_settings_rate := 185 / 2,
    day_settings_commission := 5,
    day_open := true }

/-- GoogleSheetsClient.is_day_open, dummy branch (sheets.py lines
924-927): returns the stored day_open attribute. -/
def is_day_open_dummy (s : DummyState) : Bool := s.day_open

/-! ## Legacy identifier migration (sheets.py lines 1288-1334) -/

/-- Minimal view of a transaction used by migrate_transaction_data. -/
structure MigTx where
  id : Int
  group : String
  chat_id : String
deriving DecidableEq, Repr

/-- One transaction's migration decision (sheets.py lines 1308-1322):
transactions whose chat_id is nonempty and starts with a minus sign are
skipped; otherwise the first of the two hard-coded group mappings whose
label prefixes the group (or whose mapped id equals the group) gives the
new chat_id. -/
def migNewChatId (t : MigTx) : Option String :=
  if t.chat_id ≠ "" && t.chat_id.startsWith "-" then none
  else if ("E, Илья Кузнецов и XchangeBot").isPrefixOf t.group
       || t.group == "-4605781130" then some "-4605781130"
  else if ("Тест123").isPrefixOf t.group || t.group == "-4608567148" then
    some "-4608567148"
  else none

/-- The effect of migrate_transaction_data on one transaction. -/
def migrateOne (t : MigTx) : MigTx :=
  match migNewChatId t with
  | some c => { t with chat_id := c }
  | none => t

/-- migrate_transaction_data (sheets.py lines 1288-1334) over the fetched
transaction list: rewrite each qualifying transaction's chat_id through
the normal update path and return the updated list with the count of
updates performed. -/
def migrate_transaction_data (txs : List MigTx) : List MigTx × Nat :=
  (txs.map migrateOne, txs.countP (fun t => (migNewChatId t).isSome))

/-! ## Relational store (database.py, models.py) -/

/-- Input dictionary for DatabaseManager.add_transaction. -/
structure DbAddData where
  amount : Option PyVal := none
  method : Option String := none
  commission : Option PyVal := none
  rate : Option PyVal := none
  hash : Option String := none
  status : Option String := none
deriving DecidableEq, Repr

/-- A row of the transactions table (models.py lines 26-38). -/
structure DbTransaction where
  chat_id : Int
  amount : ℚ
  method : String
  commission : ℚ
  rate : ℚ
  status : String
  transaction_hash : String
deriving DecidableEq, Repr

/-- DatabaseManager.add_transaction (database.py lines 171-217): numeric
strings are normalized (spaces and currency/percent signs stripped), the
status is always the constant "Не выплачено", and the stored hash is
data.get("hash", "") — the input dictionary's hash when present.  A
parse failure raises (the code re-raises after rollback). -/
def dbParseAmount (v : PyVal) : Except String ℚ :=
  match v with
  | .num q => .ok q
  | .str s =>
    match pyInt? ((s.replace " " "").replace "₽" "") with
    | some n => .ok (n : ℚ)
    | none => .error "ValueError"

def dbParseCommission (v : PyVal) : Except String ℚ :=
  match v with
  | .num q => .ok q
  | .str s =>
    match parseRat? (s.replace "%" "") with
    | some w => .ok w
    | none => .error "ValueError"

def dbParseRate (v : PyVal) : Except String ℚ :=
  match v with
  | .num q => .ok q
  | .str s =>
    match parseRat? (s.replace "₽" "") with
    | some w => .ok w
    | none => .error "ValueError"

def DatabaseManager.add_transaction (chat_id : Int) (data : DbAddData) :
    Except String DbTransaction :=
  match dbParseAmount (data.amount.getD (.num 0)) with
  | .error e => .error e
  | .ok amount =>
    match dbParseCommission (data.commission.getD (.num 0)) with
    | .error e => .error e
    | .ok commission =>
      match dbParseRate (data.rate.getD (.num 0)) with
      | .error e => .error e
      | .ok rate =>
        .ok { chat_id := chat_id, amount := amount,
              method := data.method.getD "", commission := commission,
              rate := rate, status := "Не выплачено",
              transaction_hash := data.hash.getD "" }

/-- Statistics dictionary of the relational store (no date and no
methods_count keys). -/
structure DbStats where
  total_amount : ℚ
  awaiting_amount : ℚ
  to_pay_amount : ℚ
  paid_amount : ℚ
  avg_rate : ℚ
  avg_commission : ℚ
  transactions_count : Nat
  unpaid_usdt : ℚ
  to_pay_usdt : ℚ
  total_usdt : ℚ
  paid_usdt : ℚ
deriving DecidableEq, Repr

/-- DatabaseManager.get_daily_statistics (database.py lines 416-553).
Its query filters on Transaction.date and ChatSettings.date, but the
models (models.py) define no date column on either table, and the
`with self.app.app_context() as session` line binds the Flask app
context, not a database session, so `session.query` is equally invalid;
the first such attribute access raises AttributeError before any row is
read.  The outer except catches it and returns this zeroed dictionary,
for every chat and every database contents. -/
def DatabaseManager.get_daily_statistics (chat_id : Int)
    (force_refresh : Bool) : DbStats :=
  { total_amount := 0, awaiting_amount := 0, to_pay_amount := 0,
    paid_amount := 0, avg_rate := 0, avg_commission := 0,
    transactions_count := 0, unpaid_usdt := 0, to_pay_usdt := 0,
    total_usdt := 0, paid_usdt := 0 }

set_option linter.unusedVariables false

/-! ## Operation bodies with injected backend I/O (error-handling model)

Each store operation's body is re-expressed over its backend primitives
as Except-valued parameters (a network call either yields a value or
raises).  The `..._run` form is the operation as the caller sees it:
the try/except at the operation boundary turns any raised error into the
safe default — except add_transaction, whose handler re-raises. -/

/-- add_transaction body (sheets.py lines 415-447): fetch column 1,
compute the next id, append the row; the except clause re-raises, so
the result stays an Except. -/
def add_transaction_run (colValues : Except String (List String))
    (appendRow : List String → Except String Unit) (now : String)
    (data : AddData) : Except String Int :=
  match colValues with
  | .error e => .error e
  | .ok col =>
    let all_ids := col.drop 1
    let newIdRes : Except String Int :=
      if all_ids.isEmpty then .ok 1
      else
        let digits := all_ids.filter isDigits
        if digits.isEmpty then .error "ValueError"
        else .ok (((digits.map strToNat).foldl max 0 : Nat) + 1 : Int)
    match newIdRes with
    | .error e => .error e
    | .ok new_id =>
      match appendRow (mkTransactionRow new_id now data) with
      | .error e => .error e
      | .ok _ => .ok new_id

/-- update_transaction body before its except clause (sheets.py lines
479-523). -/
def update_transaction_attempt (colValues : Except String (List String))
    (rowValues : Nat → Except String (List String))
    (updateRange : Nat → List String → Except String Unit)
    (transaction_id : Int) (data : UpdateData) : Except String Bool :=
  match colValues with
  | .error e => .error e
  | .ok col =>
    match findIdxFrom (· == toString transaction_id) col with
    | none => .ok false
    | some i =>
      match rowValues (i + 1) with
      | .error e => .error e
      | .ok row =>
        if row.length < 8 then .error "IndexError"
        else
          match updateRange (i + 1) (mkUpdatedRow row data) with
          | .error e => .error e
          | .ok _ => .ok true

/-- update_transaction as seen by the caller: errors become False
(sheets.py lines 524-526). -/
def update_transaction_run (colValues : Except String (List String))
    (rowValues : Nat → Except String (List String))
    (updateRange : Nat → List String → Except String Unit)
    (transaction_id : Int) (data : UpdateData) : Bool :=
  match update_transaction_attempt colValues rowValues updateRange
      transaction_id data with
  | .ok b => b
  | .error _ => false

/-- get_transaction body before its except clause (sheets.py lines
549-579). -/
def get_transaction_attempt (colValues : Except String (List String))
    (rowValues : Nat → Except String (List String))
    (transaction_id : Int) : Except String (Option STx) :=
  match colValues with
  | .error e => .error e
  | .ok col =>
    match findIdxFrom (· == toString transaction_id) col with
    | none => .ok none
    | some i =>
      match rowValues (i + 1) with
      | .error e => .error e
      | .ok row =>
        if row.length < 7 then .error "IndexError"
        else
          match pyInt? (row.getD 0 "") with
          | none => .error "ValueError"
          | some n =>
            .ok (some
              { id := n, dt := row.getD 1 "", amount := .str (row.getD 2 ""),
                method := row.getD 3 "", commission := .str (row.getD 4 ""),
                rate := .str (row.getD 5 ""), status := row.getD 6 "",
                group := row.getD 7 "", hash := row.getD 8 "",
                chat_id := row.getD 9 "" })

/-- get_transaction as seen by the caller: errors become None
(sheets.py lines 580-582). -/
def get_transaction_run (colValues : Except String (List String))
    (rowValues : Nat → Except String (List String))
    (transaction_id : Int) : Option STx :=
  match get_transaction_attempt colValues rowValues transaction_id with
  | .ok r => r
  | .error _ => none

/-- Row-to-dictionary conversion of get_all_transactions (sheets.py
lines 616-652): short rows are skipped, the optional date filter matches
by prefix of the date/time cell, the id parses to 0 when not a digit
string. -/
def parse_transactions (all_data : List (List String))
    (date : Option String) : List STx :=
  (all_data.drop 1).filterMap fun (row : List String) =>
    if row.length < 7 then none
    else if (match date with
             | some d => !((row.getD 1 "").startsWith d)
             | none => false) then none
    else
      some { id := if isDigits (row.getD 0 "") then (strToNat (row.getD 0 "") : Int)
                   else 0,
             dt := row.getD 1 "", amount := .str (row.getD 2 ""),
             method := row.getD 3 "", commission := .str (row.getD 4 ""),
             rate := .str (row.getD 5 ""), status := row.getD 6 "",
             group := row.getD 7 "", hash := row.getD 8 "",
             chat_id := row.getD 9 "" }

/-- get_all_transactions as seen by the caller: a backend error becomes
the empty list (sheets.py lines 600-655). -/
def get_all_transactions_run (getAllValues : Except String (List (List String)))
    (date : Option String) : List STx :=
  match getAllValues with
  | .ok all_data => parse_transactions all_data date
  | .error _ => []

/-- mark_transaction_paid over the same primitives (sheets.py lines
701-735): get_transaction and update_transaction absorb their own
backend errors, and the outer except converts anything else to False. -/
def mark_transaction_paid_run (colValues : Except String (List String))
    (rowValues : Nat → Except String (List String))
    (updateRange : Nat → List String → Except String Unit)
    (transaction_id : Int) (transaction_hash : String) : Bool :=
  match get_transaction_run colValues rowValues transaction_id with
  | none => false
  | some _ =>
    update_transaction_run colValues rowValues updateRange transaction_id
      { status := some "Выплачено", hash := some transaction_hash }

/-- save_day_settings body before its except clause (sheets.py lines
788-829): open or create the DaySettings worksheet, find an existing row
for the chat and update it, else append a new one. -/
def save_day_settings_attempt (openOrCreate : Except String Unit)
    (getAllValues : Except String (List (List String)))
    (updateRange : Nat → List String → Except String Unit)
    (appendRow : List String → Except String Unit)
    (current_date : String) (rate commission_percent : ℚ)
    (chat_id : Option Int) : Except String Bool :=
  match openOrCreate with
  | .error e => .error e
  | .ok _ =>
    match getAllValues with
    | .error e => .error e
    | .ok all_data =>
      let chat_id_str := (chat_id.map toString).getD ""
      let newRow := [current_date, toString rate, toString commission_percent,
                     chat_id_str]
      match findIdxFrom
          (fun (row : List String) =>
            row.length > 3 && row.getD 3 "" == chat_id_str)
          (all_data.drop 1) with
      | some j =>
        match updateRange (j + 2) newRow with
        | .error e => .error e
        | .ok _ => .ok true
      | none =>
        match appendRow newRow with
        | .error e => .error e
        | .ok _ => .ok true

/-- save_day_settings as seen by the caller: errors become False
(sheets.py lines 830-832). -/
def save_day_settings_run (openOrCreate : Except String Unit)
    (getAllValues : Except String (List (List String)))
    (updateRange : Nat → List String → Except String Unit)
    (appendRow : List String → Except String Unit)
    (current_date : String) (rate commission_percent : ℚ)
    (chat_id : Option Int) : Bool :=
  match save_day_settings_attempt openOrCreate getAllValues updateRange
      appendRow current_date rate commission_percent chat_id with
  | .ok b => b
  | .error _ => false

/-- get_day_settings as seen by the caller (sheets.py lines 845-910):
worksheet access then the pure row computation; errors become None. -/
def get_day_settings_run (access : Except String Unit)
    (getAllValues : Except String (List (List String)))
    (chat_id : Option Int) (current_date : String) : Option DaySettings :=
  match access with
  | .error _ => none
  | .ok _ =>
    match getAllValues with
    | .error _ => none
    | .ok all_data => get_day_settings_rows all_data chat_id current_date

/-- is_day_open as seen by the caller (sheets.py lines 923-1001).
accessResult is ok true when the DayStatus worksheet exists, ok false
when it was absent (the code creates it and returns False early), and
error when the access raises; any error becomes False. -/
def is_day_open_run (accessResult : Except String Bool)
    (getAllValues : Except String (List (List String)))
    (chat_id : Option Int) (current_date : String) : Bool :=
  match accessResult with
  | .error _ => false
  | .ok found =>
    if !found then false
    else
      match getAllValues with
      | .error _ => false
      | .ok all_data => is_day_open_rows all_data chat_id current_date

/-- set_day_status as seen by the caller (sheets.py lines 1014-1060):
open or create the DayStatus worksheet and append a status row; errors
become False. -/
def set_day_status_run (openOrCreate : Except String Unit)
    (appendRow : List String → Except String Unit)
    (current_date current_time : String) (is_open : Bool)
    (chat_id : Option Int) : Bool :=
  match openOrCreate with
  | .error _ => false
  | .ok _ =>
    match appendRow [current_date, if is_open then "Открыт" else "Закрыт",
                     current_time, (chat_id.map toString).getD ""] with
    | .error _ => false
    | .ok _ => true

/-! ## Concrete fixtures used by the theorems below -/

/-- A transaction of the worked statistics example: live-mode string
cells, commission 10, no per-transaction rate. -/
def c4_transaction (i : Int) (amount : String) (status : String) : STx :=
  { id := i, dt := "12.10.2025 10:00", amount := .str amount,
    method := "card", commission := .str "10", rate := .str "",
    status := status, group := "", hash := "", chat_id := "-100" }

/-- Three transactions 1000/2000/3000, the first paid. -/
def c4_transactions : List STx :=
  [c4_transaction 1 "1000" "Выплачено",
   c4_transaction 2 "2000" "Не выплачено",
   c4_transaction 3 "3000" "Не выплачено"]

def c4_day_settings : DaySettings :=
  { date := "12.10.2025", rate := 100, commission_percent := 10 }

def c4_stats : SheetsStats :=
  GoogleSheetsClient.get_daily_statistics_compute "12.10.2025"
    c4_transactions (some (-100)) (some c4_day_settings)

/-- A two-row worksheet: header plus one unpaid transaction with id 5. -/
def c6_sheet : Sheet :=
  [["ID", "Дата/время", "Сумма (₽)", "Метод", "Комиссия", "Курс",
    "Статус выплаты", "Группа", "Хэш транзакции", "chat_id"],
   ["5", "12.10.2025 10:00", "1000", "card", "10", "100",
    "Не выплачено", "G", "", "-1"]]

/-- Input dictionary carrying an explicit hash, for the insert claims. -/
def c8_db_data : DbAddData :=
  { amount := some (.num 1000), method := some "card",
    commission := some (.num 10), rate := some (.num 100),
    hash := some "abc", status := some "Выплачено" }

/-- A migration input whose chat_id is already a structured (positive)
chat identifier while its group matches a known historical label. -/
def c9_transaction : MigTx :=
  { id := 1, group := "Тест123", chat_id := "123" }

/-! ## Helper lemmas -/

theorem alGet_alSet_self {κ α : Type} [DecidableEq κ]
    (l : List (κ × α)) (k : κ) (v : α) : alGet (alSet l k v) k = some v := by
  induction l with
  | nil => simp [alSet, alGet]
  | cons h t ih =>
    obtain ⟨k0, v0⟩ := h
    by_cases hk : k0 = k <;> simp [alSet, alGet, hk, ih]

theorem alGet_alSet_ne {κ α : Type} [DecidableEq κ]
    (l : List (κ × α)) (k k' : κ) (v : α) (h : k ≠ k') :
    alGet (alSet l k v) k' = alGet l k' := by
  induction l with
  | nil => simp [alSet, alGet, h]
  | cons hd t ih =>
    obtain ⟨k0, v0⟩ := hd
    by_cases hk : k0 = k
    · subst hk
      simp [alSet, alGet, h]
    · simp [alSet, alGet, hk, ih]

theorem listGetD_set_self {α : Type} (l : List α) (i : Nat) (x d : α)
    (h : i < l.length) : (l.set i x).getD i d = x := by
  induction l generalizing i with
  | nil => simp at h
  | cons a t ih =>
    cases i with
    | zero => simp
    | succ n =>
      simp only [List.set, List.getD_cons_succ]
      exact ih n (by simpa using h)

theorem listGetD_set_ne {α : Type} (l : List α) (i j : Nat) (x d : α)
    (h : i ≠ j) : (l.set i x).getD j d = l.getD j d := by
  induction l generalizing i j with
  | nil => simp [List.set]
  | cons a t ih =>
    cases i with
    | zero =>
      cases j with
      | zero => exact absurd rfl h
      | succ m => simp
    | succ n =>
      cases j with
      | zero => simp
      | succ m =>
        simp only [List.set, List.getD_cons_succ]
        exact ih n m (by omega)

theorem findIdxFrom_lt {α : Type} (p : α → Bool) (l : List α) (i : Nat)
    (h : findIdxFrom p l = some i) : i < l.length := by
  induction l generalizing i with
  | nil => simp [findIdxFrom] at h
  | cons a t ih =>
    simp only [findIdxFrom] at h
    by_cases hp : p a
    · rw [if_pos hp] at h
      injection h with h'
      simp [← h']
    · rw [if_neg hp] at h
      obtain ⟨j, hj, hji⟩ := Option.map_eq_some'.mp h
      have := ih j hj
      simp only [List.length_cons]
      omega

theorem findIdxFrom_set {α : Type} (p : α → Bool) (l : List α) (i : Nat)
    (r : α) (d : α) (hp : p r = p (l.getD i d))
    (h : findIdxFrom p l = some i) : findIdxFrom p (l.set i r) = some i := by
  induction l generalizing i with
  | nil => simp [findIdxFrom] at h
  | cons a t ih =>
    simp only [findIdxFrom] at h
    cases i with
    | zero =>
      by_cases hpa : p a
      · simp only [List.getD_cons_zero] at hp
        simp [List.set, findIdxFrom, hp, hpa]
      · rw [if_neg hpa] at h
        obtain ⟨j, hj, hji⟩ := Option.map_eq_some'.mp h
        omega
    | succ n =>
      by_cases hpa : p a
      · rw [if_pos hpa] at h
        injection h with h'
        omega
      · rw [if_neg hpa] at h
        obtain ⟨j, hj, hji⟩ := Option.map_eq_some'.mp h
        have hjn : j = n := by omega
        subst hjn
        simp only [List.getD_cons_succ] at hp
        simp only [List.set, findIdxFrom, if_neg hpa]
        rw [ih j hp hj]
        rfl

theorem listGetD_append_right {α : Type} (l t : List α) (m : Nat) (d : α) :
    (l ++ t).getD (l.length + m) d = t.getD m d := by
  induction l with
  | nil => simp
  | cons a r ih =>
    simpa [Nat.succ_add] using ih

theorem listGetD_drop {α : Type} (l : List α) (n m : Nat) (d : α) :
    (l.drop n).getD m d = l.getD (n + m) d := by
  induction n generalizing l with
  | zero => simp
  | succ k ih =>
    cases l with
    | nil => simp
    | cons a t =>
      have : k + 1 + m = (k + m) + 1 := by omega
      rw [List.drop_succ_cons, ih, this, List.getD_cons_succ]

/-! ## C1 -/

/-- C1: the claim states that after DataManager.clear_stats_cache(C) no
cached statistics entry for C remains and the next get_daily_statistics
without force_refresh recomputes from the backend.  The code stores the
entry under the string key "day_stats_<C>" but clear_stats_cache tests
and deletes the int key C, so the entry survives: at chat 7, after
caching the backend value 100, clearing, and calling again while the
backend would now return 200, the facade still returns the stale 100 and
the entry is still present.  This evaluates the code at the failing
input of the code_bug report. -/
theorem C1_clear_stats_cache_ineffective :
    (alGet (DataManager.clear_stats_cache (V := Nat) 7
        (DataManager.get_daily_statistics (V := Nat) 7 false 100
          (DataManager.init Nat)).2).stats_cache
      (PyKey.strKey "day_stats_7") = some 100) ∧
    (DataManager.get_daily_statistics (V := Nat) 7 false 200
        (DataManager.clear_stats_cache (V := Nat) 7
          (DataManager.get_daily_statistics (V := Nat) 7 false 100
            (DataManager.init Nat)).2)).1 = 100 := by
  constructor <;> rfl

/-! ## C2 -/

/-- C2 counterexample: the claim quantifies over every wrapped read
operation, but a read whose underlying call returns None (e.g.
get_transaction on a missing id, live mode, DEBUG off) is not cached, so
the second call within the TTL invokes the underlying function again and
records a second miss with no hit — here both calls miss (misses = 2,
hits = 0) and the second call still invokes (invoked flag true). -/
theorem C2_counterexample :
    ((cache_result_call false false 3 "get_transaction:99"
        (none : Option Nat)
        (cache_result_call false false 0 "get_transaction:99"
          (none : Option Nat) (CacheManager.init Nat)).2.1).2.2 = true) ∧
    ((cache_result_call false false 3 "get_transaction:99"
        (none : Option Nat)
        (cache_result_call false false 0 "get_transaction:99"
          (none : Option Nat) (CacheManager.init Nat)).2.1).2.1.hits = 0) ∧
    ((cache_result_call false false 3 "get_transaction:99"
        (none : Option Nat)
        (cache_result_call false false 0 "get_transaction:99"
          (none : Option Nat) (CacheManager.init Nat)).2.1).2.1.misses = 2) := by
  refine ⟨rfl, rfl, rfl⟩

/-- C2 amended: in live non-dummy mode with DEBUG off, for a key with no
cached entry, if the first call's underlying result is NOT None then the
second call with the same key within CACHE_DURATION returns the first
result without invoking the underlying function, the first call is
recorded as a miss and the second as a hit. -/
theorem C2_read_through_second_call_hits {V : Type}
    (s : CacheManagerState V) (key : String) (now1 now2 : Nat) (r r' : V)
    (hnone : alGet s.cache key = none)
    (httl : now2 - now1 < CACHE_DURATION) :
    ((cache_result_call false false now1 key (some r) s).1 = some r) ∧
    ((cache_result_call false false now1 key (some r) s).2.2 = true) ∧
    ((cache_result_call false false now1 key (some r) s).2.1.misses
      = s.misses + 1) ∧
    ((cache_result_call false false now1 key (some r) s).2.1.hits = s.hits) ∧
    ((cache_result_call false false now2 key (some r')
        (cache_result_call false false now1 key (some r) s).2.1).1
      = some r) ∧
    ((cache_result_call false false now2 key (some r')
        (cache_result_call false false now1 key (some r) s).2.1).2.2
      = false) ∧
    ((cache_result_call false false now2 key (some r')
        (cache_result_call false false now1 key (some r) s).2.1).2.1.hits
      = s.hits + 1) ∧
    ((cache_result_call false false now2 key (some r')
        (cache_result_call false false now1 key (some r) s).2.1).2.1.misses
      = s.misses + 1) := by
  have h1 : cache_result_call false false now1 key (some r) s
      = (some r,
         { cache := alSet s.cache key (now1, r), hits := s.hits,
           misses := s.misses + 1,
           last_access_time := alSet s.last_access_time key now1,
           invalidations := s.invalidations }, true) := by
    simp [cache_result_call, CacheManager.get, hnone, CacheManager.set]
  have h2 : cache_result_call false false now2 key (some r')
      (cache_result_call false false now1 key (some r) s).2.1
      = (some r,
         { cache := alSet s.cache key (now1, r), hits := s.hits + 1,
           misses := s.misses + 1,
           last_access_time :=
             alSet (alSet s.last_access_time key now1) key now2,
           invalidations := s.invalidations }, false) := by
    rw [h1]
    simp [cache_result_call, CacheManager.get, alGet_alSet_self, httl]
  rw [h2, h1]
  exact ⟨rfl, rfl, rfl, rfl, rfl, rfl, rfl, rfl⟩

/-- C2 witness: the amended theorem at the empty cache, key
"get_transaction:5", times 0 and 3, first result 42, would-be second
result 99. -/
theorem C2_read_through_second_call_hits_witness :
    ((cache_result_call false false 0 "get_transaction:5" (some 42)
        (CacheManager.init Nat)).1 = some 42) ∧
    ((cache_result_call false false 3 "get_transaction:5" (some 99)
        (cache_result_call false false 0 "get_transaction:5" (some 42)
          (CacheManager.init Nat)).2.1).2.2 = false) ∧
    ((cache_result_call false false 3 "get_transaction:5" (some 99)
        (cache_result_call false false 0 "get_transaction:5" (some 42)
          (CacheManager.init Nat)).2.1).2.1.hits = 1) := by
  have h := C2_read_through_second_call_hits (CacheManager.init Nat)
    "get_transaction:5" 0 3 42 99 rfl (by decide)
  exact ⟨h.1, h.2.2.2.2.2.1, h.2.2.2.2.2.2.1⟩

/-! ## C3 -/

/-- C3 counterexample: the claim states an empty (but non-None) result,
such as an empty transaction list, is returned but NOT cached; the
decorator only tests `result is not None`, so the empty list IS stored
in the cache. -/
theorem C3_counterexample :
    alGet (cache_result_call false false 0 "get_all_transactions:01.01.2025"
        (some ([] : List Nat))
        (CacheManager.init (List Nat))).2.1.cache
      "get_all_transactions:01.01.2025" = some (0, ([] : List Nat)) := by
  rfl

/-- C3 amended: on a cache miss the wrapped operation's result is stored
if and only if it is not None; an empty list is non-None and is cached,
only the None result is returned uncached. -/
theorem C3_cache_iff_not_none {V : Type} (s : CacheManagerState V)
    (key : String) (now : Nat) (res : Option V)
    (hnone : alGet s.cache key = none) :
    (alGet (cache_result_call false false now key res s).2.1.cache key
      = res.map (fun r => (now, r))) ∧
    ((cache_result_call false false now key res s).1 = res) := by
  cases res with
  | none =>
    constructor
    · simp [cache_result_call, CacheManager.get, hnone]
    · simp [cache_result_call, CacheManager.get, hnone]
  | some v =>
    constructor
    · simp [cache_result_call, CacheManager.get, hnone, CacheManager.set,
        alGet_alSet_self]
    · simp [cache_result_call, CacheManager.get, hnone, CacheManager.set]

/-- C3 witness: the amended theorem at the empty cache with the empty
list result. -/
theorem C3_cache_iff_not_none_witness :
    (alGet (cache_result_call false false 0 "get_all_transactions"
        (some ([] : List Nat))
        (CacheManager.init (List Nat))).2.1.cache "get_all_transactions"
      = some (0, ([] : List Nat))) ∧
    ((cache_result_call false false 0 "get_all_transactions"
        (some ([] : List Nat)) (CacheManager.init (List Nat))).1
      = some []) := by
  have h := C3_cache_iff_not_none (CacheManager.init (List Nat))
    "get_all_transactions" 0 (some ([] : List Nat)) rfl
  exact ⟨h.1, h.2⟩

/-! ## C4 -/

/-- C4: the worked statistics example.  On the sheets backend the claim
holds: three transactions 1000/2000/3000 (first paid), commission 10 and
day rate 100 give total 6000, paid 1000, awaiting 5000, to-pay 4500 and
60 settlement units.  The claim also names the relational backend, but
DatabaseManager.get_daily_statistics filters on columns that do not
exist in the models (Transaction.date, ChatSettings.date) and misuses
app_context() as a session, so its except handler always returns the
zeroed dictionary — the same input there yields total_amount 0, not
6000.  The two final conjuncts evaluate that failing backend. -/
theorem C4_statistics_worked_example :
    c4_stats.total_amount = 6000 ∧ c4_stats.paid_amount = 1000 ∧
    c4_stats.awaiting_amount = 5000 ∧ c4_stats.to_pay_amount = 4500 ∧
    c4_stats.total_usdt = 60 ∧
    (DatabaseManager.get_daily_statistics (-100) false).total_amount = 0 ∧
    (DatabaseManager.get_daily_statistics (-100) false).transactions_count
      = 0 := by
  refine ⟨?_, ?_, ?_, ?_, ?_, rfl, rfl⟩ <;> with_unfolding_all rfl

/-! ## C5 -/

/-- C5 counterexample: the claim asserts is_day_open returns false for a
chat with no status rows in EVERY mode, including the offline dummy
fallback; but _initialize_dummy_mode sets day_open to True, so a fresh
dummy-mode client reports the day open for any chat even though no
status row was ever appended. -/
theorem C5_counterexample :
    is_day_open_dummy (initialize_dummy_mode "12.10.2025 00:00") = true := by
  rfl

/-- C5 amended: in regular (live) mode, is_day_open returns false for a
chat with no day-status rows (no data row carries that chat's id in
column 4); in dummy mode the call instead returns the in-memory day_open
flag, which initialization sets to True. -/
theorem C5_no_rows_is_closed (all_data : List (List String)) (c : Int)
    (current_date : String)
    (hnone : ∀ row ∈ all_data.drop 1,
      (row.length > 3 && row.getD 3 "" == toString c) = false) :
    is_day_open_rows all_data (some c) current_date = false ∧
    ∀ now, is_day_open_dummy (initialize_dummy_mode now) = true := by
  refine ⟨?_, fun _ => rfl⟩
  unfold is_day_open_rows
  by_cases hl : all_data.length ≤ 1
  · rw [if_pos hl]
  · rw [if_neg hl]
    have hf : (all_data.drop 1).filter
        (fun row => row.length > 3 && row.getD 3 "" == toString c) = [] := by
      refine List.filter_eq_nil_iff.mpr ?_
      intro a ha
      simp only [hnone a ha]
      simp
    simp only [hf]
    rfl

/-- C5 witness: the amended theorem at a header-only DayStatus sheet and
chat 5. -/
theorem C5_no_rows_is_closed_witness :
    is_day_open_rows [["Дата", "Статус", "Время", "chat_id"]] (some 5)
      "12.10.2025" = false ∧
    is_day_open_dummy (initialize_dummy_mode "x") = true := by
  have h := C5_no_rows_is_closed [["Дата", "Статус", "Время", "chat_id"]] 5
    "12.10.2025" (by decide)
  exact ⟨h.1, h.2 "x"⟩

/-! ## C6 -/

/-- C6: marking an existing transaction paid twice with the same hash
succeeds both times, the second call leaves the sheet exactly as the
first left it, and afterwards the transaction's status is the paid
constant and its hash is the given hash.  The hypotheses say the
transaction exists: its id is found in column 1 at row index i, its row
has the 8 cells the update reads, and get_transaction retrieves it. -/
theorem C6_mark_transaction_paid_idempotent (sheet : Sheet) (tid : Int)
    (hsh : String) (i : Nat) (hfind : findRowIdx sheet tid = some i)
    (hlen : 8 ≤ (sheet.getD i []).length)
    (hget : (GoogleSheetsClient.get_transaction sheet tid).isSome = true) :
    (GoogleSheetsClient.mark_transaction_paid sheet tid hsh).1 = true ∧
    (GoogleSheetsClient.mark_transaction_paid
      (GoogleSheetsClient.mark_transaction_paid sheet tid hsh).2
      tid hsh).1 = true ∧
    (GoogleSheetsClient.mark_transaction_paid
      (GoogleSheetsClient.mark_transaction_paid sheet tid hsh).2
      tid hsh).2 = (GoogleSheetsClient.mark_transaction_paid sheet tid hsh).2 ∧
    (GoogleSheetsClient.get_transaction
      (GoogleSheetsClient.mark_transaction_paid
        (GoogleSheetsClient.mark_transaction_paid sheet tid hsh).2
        tid hsh).2 tid).map (fun t => (t.status, t.hash))
      = some ("Выплачено", hsh) := by
  have hi : i < sheet.length := findIdxFrom_lt _ sheet i hfind
  have h7 : ¬ ((sheet.getD i []).length < 7) := by omega
  have h8 : ¬ ((sheet.getD i []).length < 8) := by omega
  obtain ⟨n, hn⟩ : ∃ n, pyInt? ((sheet.getD i []).getD 0 "") = some n := by
    simp only [GoogleSheetsClient.get_transaction, hfind, if_neg h7] at hget
    rcases hp : pyInt? ((sheet.getD i []).getD 0 "") with _ | n
    · rw [hp] at hget
      simp at hget
    · exact ⟨n, rfl⟩
  have hget1 : GoogleSheetsClient.get_transaction sheet tid
      = some { id := n, dt := (sheet.getD i []).getD 1 "",
               amount := .str ((sheet.getD i []).getD 2 ""),
               method := (sheet.getD i []).getD 3 "",
               commission := .str ((sheet.getD i []).getD 4 ""),
               rate := .str ((sheet.getD i []).getD 5 ""),
               status := (sheet.getD i []).getD 6 "",
               group := (sheet.getD i []).getD 7 "",
               hash := (sheet.getD i []).getD 8 "",
               chat_id := (sheet.getD i []).getD 9 "" } := by
    simp only [GoogleSheetsClient.get_transaction, hfind, if_neg h7, hn]
  have hupd1 : GoogleSheetsClient.update_transaction sheet tid
      { status := some "Выплачено", hash := some hsh }
      = (true, sheet.set i (markRow (sheet.getD i []) hsh)) := by
    simp only [GoogleSheetsClient.update_transaction, hfind, if_neg h8]
    rfl
  have hm1 : GoogleSheetsClient.mark_transaction_paid sheet tid hsh
      = (true, sheet.set i (markRow (sheet.getD i []) hsh)) := by
    simp only [GoogleSheetsClient.mark_transaction_paid, hget1, hupd1]
  have hnr0 : (markRow (sheet.getD i []) hsh).getD 0 ""
      = (sheet.getD i []).getD 0 "" := rfl
  have hfind2 : findRowIdx
      (sheet.set i (markRow (sheet.getD i []) hsh)) tid = some i := by
    show findIdxFrom (fun r => r.getD 0 "" == toString tid)
      (sheet.set i (markRow (sheet.getD i []) hsh)) = some i
    apply findIdxFrom_set _ sheet i _ []
    · show ((markRow (sheet.getD i []) hsh).getD 0 "" == toString tid)
        = ((sheet.getD i []).getD 0 "" == toString tid)
      rw [hnr0]
    · exact hfind
  have hrow2 : (sheet.set i (markRow (sheet.getD i []) hsh)).getD i []
      = markRow (sheet.getD i []) hsh := listGetD_set_self sheet i _ [] hi
  have hlen2 : (markRow (sheet.getD i []) hsh).length
      = ((sheet.getD i []).drop 10).length + 10 := rfl
  have h72 : ¬ ((markRow (sheet.getD i []) hsh).length < 7) := by omega
  have h82 : ¬ ((markRow (sheet.getD i []) hsh).length < 8) := by omega
  have hn2 : pyInt? ((markRow (sheet.getD i []) hsh).getD 0 "") = some n := by
    rw [hnr0]
    exact hn
  have hget2 : GoogleSheetsClient.get_transaction
      (sheet.set i (markRow (sheet.getD i []) hsh)) tid
      = some { id := n,
               dt := (markRow (sheet.getD i []) hsh).getD 1 "",
               amount := .str ((markRow (sheet.getD i []) hsh).getD 2 ""),
               method := (markRow (sheet.getD i []) hsh).getD 3 "",
               commission := .str ((markRow (sheet.getD i []) hsh).getD 4 ""),
               rate := .str ((markRow (sheet.getD i []) hsh).getD 5 ""),
               status := (markRow (sheet.getD i []) hsh).getD 6 "",
               group := (markRow (sheet.getD i []) hsh).getD 7 "",
               hash := (markRow (sheet.getD i []) hsh).getD 8 "",
               chat_id := (markRow (sheet.getD i []) hsh).getD 9 "" } := by
    simp only [GoogleSheetsClient.get_transaction, hfind2, hrow2,
      if_neg h72, hn2]
  have hupd2 : GoogleSheetsClient.update_transaction
      (sheet.set i (markRow (sheet.getD i []) hsh)) tid
      { status := some "Выплачено", hash := some hsh }
      = (true, (sheet.set i (markRow (sheet.getD i []) hsh)).set i
          (markRow (markRow (sheet.getD i []) hsh) hsh)) := by
    simp only [GoogleSheetsClient.update_transaction, hfind2, hrow2,
      if_neg h82]
    rfl
  have hstab : markRow (markRow (sheet.getD i []) hsh) hsh
      = markRow (sheet.getD i []) hsh := rfl
  have hm2 : GoogleSheetsClient.mark_transaction_paid
      (sheet.set i (markRow (sheet.getD i []) hsh)) tid hsh
      = (true, sheet.set i (markRow (sheet.getD i []) hsh)) := by
    simp only [GoogleSheetsClient.mark_transaction_paid, hget2, hupd2,
      hstab, List.set_set]
  refine ⟨?_, ?_, ?_, ?_⟩
  · rw [hm1]
  · simp only [hm1, hm2]
  · simp only [hm1, hm2]
  · simp only [hm1, hm2, hget2, Option.map_some']
    rfl

/-- C6 witness: the theorem at the two-row fixture sheet, transaction 5
at row index 1, hash "habc". -/
theorem C6_mark_transaction_paid_idempotent_witness :
    (GoogleSheetsClient.mark_transaction_paid c6_sheet 5 "habc").1 = true ∧
    (GoogleSheetsClient.get_transaction
      (GoogleSheetsClient.mark_transaction_paid
        (GoogleSheetsClient.mark_transaction_paid c6_sheet 5 "habc").2
        5 "habc").2 5).map (fun t => (t.status, t.hash))
      = some ("Выплачено", "habc") := by
  have h := C6_mark_transaction_paid_idempotent c6_sheet 5 "habc" 1
    (by with_unfolding_all rfl) (by decide) (by with_unfolding_all rfl)
  exact ⟨h.1, h.2.2.2⟩

/-! ## C7 helper lemmas: one failing backend primitive per operation -/

theorem add_run_col_error (e : String)
    (ar : List String → Except String Unit) (now : String) (data : AddData) :
    add_transaction_run (.error e) ar now data = .error e := rfl

theorem add_run_append_error (e : String)
    (cv : Except String (List String)) (now : String) (data : AddData) :
    (add_transaction_run cv (fun _ => .error e) now data).isOk = false := by
  cases cv with
  | error e' => rfl
  | ok col =>
    simp only [add_transaction_run]
    split
    · rfl
    · rfl

theorem update_run_col_error (e : String)
    (rv : Nat → Except String (List String))
    (ur : Nat → List String → Except String Unit)
    (tid : Int) (d : UpdateData) :
    update_transaction_run (.error e) rv ur tid d = false := rfl

theorem update_run_row_error (e : String)
    (cv : Except String (List String))
    (ur : Nat → List String → Except String Unit)
    (tid : Int) (d : UpdateData) :
    update_transaction_run cv (fun _ => .error e) ur tid d = false := by
  cases cv with
  | error e' => rfl
  | ok col =>
    simp only [update_transaction_run, update_transaction_attempt]
    cases hf : findIdxFrom (fun v => v == toString tid) col with
    | none => rfl
    | some i => rfl

theorem update_run_range_error (e : String)
    (cv : Except String (List String))
    (rv : Nat → Except String (List String))
    (tid : Int) (d : UpdateData) :
    update_transaction_run cv rv (fun _ _ => .error e) tid d = false := by
  cases cv with
  | error e' => rfl
  | ok col =>
    cases hf : findIdxFrom (fun v => v == toString tid) col with
    | none => simp only [update_transaction_run, update_transaction_attempt, hf]
    | some i =>
      cases hr : rv (i + 1) with
      | error e' =>
        simp only [update_transaction_run, update_transaction_attempt, hf, hr]
      | ok row =>
        by_cases hl : row.length < 8
        · simp only [update_transaction_run, update_transaction_attempt, hf,
            hr, if_pos hl]
        · simp only [update_transaction_run, update_transaction_attempt, hf,
            hr, if_neg hl]

theorem get_run_col_error (e : String)
    (rv : Nat → Except String (List String)) (tid : Int) :
    get_transaction_run (.error e) rv tid = none := rfl

theorem get_run_row_error (e : String)
    (cv : Except String (List String)) (tid : Int) :
    get_transaction_run cv (fun _ => .error e) tid = none := by
  cases cv with
  | error e' => rfl
  | ok col =>
    simp only [get_transaction_run, get_transaction_attempt]
    cases hf : findIdxFrom (fun v => v == toString tid) col with
    | none => rfl
    | some i => rfl

theorem get_all_run_error (e : String) (date : Option String) :
    get_all_transactions_run (.error e) date = [] := rfl

theorem mark_run_col_error (e : String)
    (rv : Nat → Except String (List String))
    (ur : Nat → List String → Except String Unit)
    (tid : Int) (hsh : String) :
    mark_transaction_paid_run (.error e) rv ur tid hsh = false := rfl

theorem mark_run_range_error (e : String)
    (cv : Except String (List String))
    (rv : Nat → Except String (List String))
    (tid : Int) (hsh : String) :
    mark_transaction_paid_run cv rv (fun _ _ => .error e) tid hsh = false := by
  unfold mark_transaction_paid_run
  cases hg : get_transaction_run cv rv tid with
  | none => rfl
  | some tx => exact update_run_range_error e cv rv tid _

theorem save_run_open_error (e : String)
    (g : Except String (List (List String)))
    (u : Nat → List String → Except String Unit)
    (a : List String → Except String Unit)
    (cd : String) (r cm : ℚ) (cid : Option Int) :
    save_day_settings_run (.error e) g u a cd r cm cid = false := rfl

theorem save_run_values_error (e : String) (o : Except String Unit)
    (u : Nat → List String → Except String Unit)
    (a : List String → Except String Unit)
    (cd : String) (r cm : ℚ) (cid : Option Int) :
    save_day_settings_run o (.error e) u a cd r cm cid = false := by
  cases o with
  | error e' => rfl
  | ok _ => rfl

theorem save_run_write_error (e e' : String) (o : Except String Unit)
    (g : Except String (List (List String)))
    (cd : String) (r cm : ℚ) (cid : Option Int) :
    save_day_settings_run o g (fun _ _ => .error e) (fun _ => .error e')
      cd r cm cid = false := by
  cases o with
  | error e0 => rfl
  | ok _ =>
    cases g with
    | error e0 => rfl
    | ok all_data =>
      simp only [save_day_settings_run, save_day_settings_attempt]
      cases hf : findIdxFrom
          (fun (row : List String) => row.length > 3 &&
            row.getD 3 "" == (cid.map toString).getD "")
          (all_data.drop 1) with
      | none => rfl
      | some j => rfl

theorem day_settings_run_access_error (e : String)
    (g : Except String (List (List String)))
    (cid : Option Int) (cd : String) :
    get_day_settings_run (.error e) g cid cd = none := rfl

theorem day_settings_run_values_error (e : String) (o : Except String Unit)
    (cid : Option Int) (cd : String) :
    get_day_settings_run o (.error e) cid cd = none := by
  cases o with
  | error e' => rfl
  | ok _ => rfl

theorem day_open_run_access_error (e : String)
    (g : Except String (List (List String)))
    (cid : Option Int) (cd : String) :
    is_day_open_run (.error e) g cid cd = false := rfl

theorem day_open_run_values_error (e : String) (acc : Except String Bool)
    (cid : Option Int) (cd : String) :
    is_day_open_run acc (.error e) cid cd = false := by
  cases acc with
  | error e' => rfl
  | ok found => cases found <;> rfl

theorem day_status_run_open_error (e : String)
    (a : List String → Except String Unit)
    (cd ct : String) (is_open : Bool) (cid : Option Int) :
    set_day_status_run (.error e) a cd ct is_open cid = false := rfl

theorem day_status_run_append_error (e : String) (o : Except String Unit)
    (cd ct : String) (is_open : Bool) (cid : Option Int) :
    set_day_status_run o (fun _ => .error e) cd ct is_open cid = false := by
  cases o with
  | error e' => rfl
  | ok _ => rfl

/-! ## C7 -/

/-- C7: for every input and every point at which the backend raises,
add_transaction re-raises the error to its caller (the first conjunct
propagates the exact error, the second says a failing append never
yields a success), while every other store operation converts the raise
to its safe default: update_transaction and mark_transaction_paid and
save_day_settings and set_day_status return false, get_transaction and
get_day_settings return none, get_all_transactions returns the empty
list, is_day_open returns false — so add_transaction is the only store
operation that surfaces a backend exception. -/
theorem C7_error_boundaries :
    (∀ (e : String) (ar : List String → Except String Unit) (now : String)
        (data : AddData),
      add_transaction_run (.error e) ar now data = .error e) ∧
    (∀ (e : String) (cv : Except String (List String)) (now : String)
        (data : AddData),
      (add_transaction_run cv (fun _ => .error e) now data).isOk = false) ∧
    (∀ (e : String) (rv : Nat → Except String (List String))
        (ur : Nat → List String → Except String Unit) (tid : Int)
        (d : UpdateData),
      update_transaction_run (.error e) rv ur tid d = false) ∧
    (∀ (e : String) (cv : Except String (List String))
        (ur : Nat → List String → Except String Unit) (tid : Int)
        (d : UpdateData),
      update_transaction_run cv (fun _ => .error e) ur tid d = false) ∧
    (∀ (e : String) (cv : Except String (List String))
        (rv : Nat → Except String (List String)) (tid : Int)
        (d : UpdateData),
      update_transaction_run cv rv (fun _ _ => .error e) tid d = false) ∧
    (∀ (e : String) (rv : Nat → Except String (List String)) (tid : Int),
      get_transaction_run (.error e) rv tid = none) ∧
    (∀ (e : String) (cv : Except String (List String)) (tid : Int),
      get_transaction_run cv (fun _ => .error e) tid = none) ∧
    (∀ (e : String) (date : Option String),
      get_all_transactions_run (.error e) date = []) ∧
    (∀ (e : String) (rv : Nat → Except String (List String))
        (ur : Nat → List String → Except String Unit) (tid : Int)
        (hsh : String),
      mark_transaction_paid_run (.error e) rv ur tid hsh = false) ∧
    (∀ (e : String) (cv : Except String (List String))
        (rv : Nat → Except String (List String)) (tid : Int) (hsh : String),
      mark_transaction_paid_run cv rv (fun _ _ => .error e) tid hsh
        = false) ∧
    (∀ (e : String) (g : Except String (List (List String)))
        (u : Nat → List String → Except String Unit)
        (a : List String → Except String Unit) (cd : String) (r cm : ℚ)
        (cid : Option Int),
      save_day_settings_run (.error e) g u a cd r cm cid = false) ∧
    (∀ (e : String) (o : Except String Unit)
        (u : Nat → List String → Except String Unit)
        (a : List String → Except String Unit) (cd : String) (r cm : ℚ)
        (cid : Option Int),
      save_day_settings_run o (.error e) u a cd r cm cid = false) ∧
    (∀ (e e' : String) (o : Except String Unit)
        (g : Except String (List (List String))) (cd : String) (r cm : ℚ)
        (cid : Option Int),
      save_day_settings_run o g (fun _ _ => .error e) (fun _ => .error e')
        cd r cm cid = false) ∧
    (∀ (e : String) (g : Except String (List (List String)))
        (cid : Option Int) (cd : String),
      get_day_settings_run (.error e) g cid cd = none) ∧
    (∀ (e : String) (o : Except String Unit) (cid : Option Int)
        (cd : String),
      get_day_settings_run o (.error e) cid cd = none) ∧
    (∀ (e : String) (g : Except String (List (List String)))
        (cid : Option Int) (cd : String),
      is_day_open_run (.error e) g cid cd = false) ∧
    (∀ (e : String) (acc : Except String Bool) (cid : Option Int)
        (cd : String),
      is_day_open_run acc (.error e) cid cd = false) ∧
    (∀ (e : String) (a : List String → Except String Unit) (cd ct : String)
        (is_open : Bool) (cid : Option Int),
      set_day_status_run (.error e) a cd ct is_open cid = false) ∧
    (∀ (e : String) (o : Except String Unit) (cd ct : String)
        (is_open : Bool) (cid : Option Int),
      set_day_status_run o (fun _ => .error e) cd ct is_open cid = false) :=
  ⟨add_run_col_error, add_run_append_error, update_run_col_error,
   update_run_row_error, update_run_range_error, get_run_col_error,
   get_run_row_error, get_all_run_error, mark_run_col_error,
   mark_run_range_error, save_run_open_error, save_run_values_error,
   save_run_write_error, day_settings_run_access_error,
   day_settings_run_values_error, day_open_run_access_error,
   day_open_run_values_error, day_status_run_open_error,
   day_status_run_append_error⟩

/-! ## C8 -/

/-- C8 counterexample: the claim says a new transaction gets an EMPTY
hash in both backends regardless of the input dictionary; the relational
store's insert stores data.get("hash", ""), so supplying hash "abc"
creates the row with hash "abc", not "". -/
theorem C8_counterexample :
    (DatabaseManager.add_transaction 5 c8_db_data).map
      (fun t => t.transaction_hash) = .ok "abc" := by
  rfl

/-- C8 amended: both backends force the status of a new transaction to
the not-paid constant whatever the input contains; the sheets backend
also writes an empty hash cell regardless of the input, while the
relational backend stores the input's hash when one is supplied and the
empty string only when the key is absent. -/
theorem C8_insert_status_and_hash (sheet : Sheet) (now : String)
    (data : AddData) (chat_id : Int) (dbdata : DbAddData) :
    (∀ (new_id : Int) (sheet' : Sheet),
      GoogleSheetsClient.add_transaction sheet now data
        = .ok (new_id, sheet') →
      (sheet'.getLastD []).getD 6 "" = "Не выплачено" ∧
      (sheet'.getLastD []).getD 8 "" = "") ∧
    (∀ t : DbTransaction,
      DatabaseManager.add_transaction chat_id dbdata = .ok t →
      t.status = "Не выплачено" ∧ t.transaction_hash = dbdata.hash.getD "") := by
  constructor
  · intro new_id sheet' h
    cases hid : nextTransactionId sheet with
    | error e =>
      simp only [GoogleSheetsClient.add_transaction, hid] at h
      exact Except.noConfusion h
    | ok nid =>
      simp only [GoogleSheetsClient.add_transaction, hid,
        Except.ok.injEq, Prod.mk.injEq] at h
      obtain ⟨h1, h2⟩ := h
      rw [← h2, List.getLastD_concat]
      exact ⟨rfl, rfl⟩
  · intro t h
    cases ha : dbParseAmount (dbdata.amount.getD (.num 0)) with
    | error e =>
      simp only [DatabaseManager.add_transaction, ha] at h
      exact Except.noConfusion h
    | ok am =>
      cases hc : dbParseCommission (dbdata.commission.getD (.num 0)) with
      | error e =>
        simp only [DatabaseManager.add_transaction, ha, hc] at h
        exact Except.noConfusion h
      | ok cm =>
        cases hr : dbParseRate (dbdata.rate.getD (.num 0)) with
        | error e =>
          simp only [DatabaseManager.add_transaction, ha, hc, hr] at h
          exact Except.noConfusion h
        | ok rt =>
          simp only [DatabaseManager.add_transaction, ha, hc, hr,
            Except.ok.injEq] at h
          rw [← h]
          exact ⟨rfl, rfl⟩

/-- C8 witness: the amended theorem at an empty sheet and at the fixture
input that supplies status and hash values. -/
theorem C8_insert_status_and_hash_witness :
    ((([] : Sheet) ++ [mkTransactionRow 1 "now"
        { amount := "1000", method := "card", commission := "10",
          rate := "100", status := some "Выплачено",
          hash := some "abc" }]).getLastD []).getD 6 "" = "Не выплачено" ∧
    ∀ t : DbTransaction,
      DatabaseManager.add_transaction 5 c8_db_data = .ok t →
      t.status = "Не выплачено" ∧ t.transaction_hash = "abc" := by
  have h := C8_insert_status_and_hash ([] : Sheet) "now"
    { amount := "1000", method := "card", commission := "10",
      rate := "100", status := some "Выплачено", hash := some "abc" }
    5 c8_db_data
  exact ⟨(h.1 1 _ rfl).1, h.2⟩

/-! ## C9 helper lemmas -/

theorem migNewChatId_structured_neg (t : MigTx) (h1 : t.chat_id ≠ "")
    (h2 : t.chat_id.startsWith "-" = true) : migNewChatId t = none := by
  unfold migNewChatId
  rw [if_pos (by simp [h1, h2])]

theorem migNewChatId_some (t : MigTx) (c : String)
    (h : migNewChatId t = some c) :
    c = "-4605781130" ∨ c = "-4608567148" := by
  unfold migNewChatId at h
  split_ifs at h
  all_goals first
    | (injection h with h'
       exact Or.inl h'.symm)
    | (injection h with h'
       exact Or.inr h'.symm)
    | exact absurd h (by simp)

theorem migrateOne_settled (t : MigTx) :
    migNewChatId (migrateOne t) = none := by
  cases hm : migNewChatId t with
  | none => simp [migrateOne, hm]
  | some c =>
    have hone : migrateOne t = { t with chat_id := c } := by
      simp [migrateOne, hm]
    rw [hone]
    rcases migNewChatId_some t c hm with rfl | rfl
    · exact migNewChatId_structured_neg _ (by simp)
        (by with_unfolding_all rfl)
    · exact migNewChatId_structured_neg _ (by simp)
        (by with_unfolding_all rfl)

theorem migrateOne_idem (t : MigTx) :
    migrateOne (migrateOne t) = migrateOne t := by
  conv_lhs => rw [migrateOne]
  rw [migrateOne_settled t]

/-! ## C9 -/

/-- C9 counterexample: the claim says every transaction whose identifier
field already bears a structured chat identifier is skipped.  Chat
identifiers are signed integers (positive for private chats), but the
skip test only accepts identifiers starting with a minus sign: the
fixture transaction carries the structured identifier "123" and the
known group label "Тест123", and the migration rewrites its identifier
to "-4608567148" and reports one update instead of skipping it. -/
theorem C9_counterexample :
    migrate_transaction_data [c9_transaction]
      = ([{ id := 1, group := "Тест123", chat_id := "-4608567148" }], 1) := by
  with_unfolding_all rfl

/-- C9 amended: the migration skips (leaves unchanged) every transaction
whose identifier is nonempty and starts with a minus sign — a negative
structured identifier — though not positive structured identifiers; and
running the migration a second time immediately after a first run
performs zero updates and returns exactly the first run's rows. -/
theorem C9_migration_idempotent (txs : List MigTx) :
    (∀ t ∈ txs, t.chat_id ≠ "" → t.chat_id.startsWith "-" = true →
      migrateOne t = t) ∧
    migrate_transaction_data (migrate_transaction_data txs).1
      = ((migrate_transaction_data txs).1, 0) := by
  constructor
  · intro t _ h1 h2
    simp [migrateOne, migNewChatId_structured_neg t h1 h2]
  · have hmap : (txs.map migrateOne).map migrateOne = txs.map migrateOne := by
      rw [List.map_map]
      apply List.map_congr_left
      intro t _
      exact migrateOne_idem t
    have hcount : (txs.map migrateOne).countP
        (fun t => (migNewChatId t).isSome) = 0 := by
      refine List.countP_eq_zero.mpr ?_
      intro a ha
      obtain ⟨b, _, rfl⟩ := List.mem_map.mp ha
      simp [migrateOne_settled b]
    simp only [migrate_transaction_data]
    rw [hmap, hcount]

/-- C9 witness: the amended theorem at a one-element list whose
transaction already carries a negative structured identifier. -/
theorem C9_migration_idempotent_witness :
    migrateOne { id := 2, group := "G", chat_id := "-5" }
      = { id := 2, group := "G", chat_id := "-5" } ∧
    migrate_transaction_data
        (migrate_transaction_data [c9_transaction]).1
      = ((migrate_transaction_data [c9_transaction]).1, 0) := by
  have h1 := (C9_migration_idempotent
    [{ id := 2, group := "G", chat_id := "-5" }]).1
    { id := 2, group := "G", chat_id := "-5" } (by simp)
    (by simp) (by with_unfolding_all rfl)
  have h2 := (C9_migration_idempotent [c9_transaction]).2
  exact ⟨h1, h2⟩

/-! ## C10 -/

/-- C10: in live mode, update_transaction leaves the ID column (0), the
date/time column (1), the group column (7) and any cell beyond the A..J
range unchanged for every row, whatever the update dictionary contains —
including dictionaries that supply id, datetime or group values, which
the operation never reads.  Only columns 2-6, 8 and 9 (amount, method,
commission, rate, status, hash, chat id) can change. -/
theorem C10_update_preserves_fixed_columns (sheet : Sheet) (tid : Int)
    (data : UpdateData) (j k : Nat)
    (hk : k = 0 ∨ k = 1 ∨ k = 7 ∨ 10 ≤ k) :
    (((GoogleSheetsClient.update_transaction sheet tid data).2.getD j
        []).getD k "")
      = ((sheet.getD j []).getD k "") := by
  cases hf : findRowIdx sheet tid with
  | none =>
    have hupd : GoogleSheetsClient.update_transaction sheet tid data
        = (false, sheet) := by
      simp only [GoogleSheetsClient.update_transaction, hf]
    rw [hupd]
  | some i =>
    by_cases hl : (sheet.getD i []).length < 8
    · have hupd : GoogleSheetsClient.update_transaction sheet tid data
          = (false, sheet) := by
        simp only [GoogleSheetsClient.update_transaction, hf, if_pos hl]
      rw [hupd]
    · have hupd : GoogleSheetsClient.update_transaction sheet tid data
          = (true, sheet.set i (mkUpdatedRow (sheet.getD i []) data
              ++ (sheet.getD i []).drop 10)) := by
        simp only [GoogleSheetsClient.update_transaction, hf, if_neg hl]
      rw [hupd]
      show (((sheet.set i (mkUpdatedRow (sheet.getD i []) data
          ++ (sheet.getD i []).drop 10)).getD j []).getD k "")
        = ((sheet.getD j []).getD k "")
      by_cases hij : i = j
      · subst hij
        have hi : i < sheet.length := findIdxFrom_lt _ sheet i hf
        rw [listGetD_set_self sheet i _ [] hi]
        rcases hk with rfl | rfl | rfl | hk10
        · rfl
        · rfl
        · rfl
        · have h10 : 10 + (k - 10) = k := by omega
          calc (mkUpdatedRow (sheet.getD i []) data
                ++ (sheet.getD i []).drop 10).getD k ""
              = (mkUpdatedRow (sheet.getD i []) data
                ++ (sheet.getD i []).drop 10).getD (10 + (k - 10)) "" := by
                rw [h10]
            _ = ((sheet.getD i []).drop 10).getD (k - 10) "" :=
                listGetD_append_right _ _ _ _
            _ = (sheet.getD i []).getD (10 + (k - 10)) "" :=
                listGetD_drop _ _ _ _
            _ = (sheet.getD i []).getD k "" := by rw [h10]
      · rw [listGetD_set_ne sheet i j _ [] hij]

/-- C10 witness: the theorem at the fixture sheet and an update
dictionary that supplies id, datetime and group values: the group cell
of the transaction row is untouched. -/
theorem C10_update_preserves_fixed_columns_witness :
    (((GoogleSheetsClient.update_transaction c6_sheet 5
        { amount := some "9999", status := some "X", id := some "777",
          datetime := some "01.01.2000", group := some "HIJACK" }).2.getD 1
        []).getD 7 "") = "G" := by
  have h := C10_update_preserves_fixed_columns c6_sheet 5
    { amount := some "9999", status := some "X", id := some "777",
      datetime := some "01.01.2000", group := some "HIJACK" } 1 7
    (Or.inr (Or.inr (Or.inl rfl)))
  rw [h]
  rfl
